import Mathlib

/-!
Verification development for the IOPaint/Unity face-selection and handoff
system.  The definitions below are a shallow embedding of
`assets/Scripts/InpaintingManager.cs` (face classifier, highlight mesh
generator, selection workflow) and of the web-app side
(`web_app/src/hooks/useInputImage.tsx` and the socket listener in the
main page component).  Floating-point vectors are modelled over `ℝ`;
machine state is modelled as explicit records; side effects are modelled
as explicit effect lists.
-/

/-- 3-component vector, modelling `UnityEngine.Vector3` over `ℝ`. -/
structure Vec3 where
  x : ℝ
  y : ℝ
  z : ℝ

namespace Vec3

noncomputable instance : Add Vec3 := ⟨fun a b => ⟨a.x + b.x, a.y + b.y, a.z + b.z⟩⟩
noncomputable instance : Sub Vec3 := ⟨fun a b => ⟨a.x - b.x, a.y - b.y, a.z - b.z⟩⟩
noncomputable instance : SMul ℝ Vec3 := ⟨fun k v => ⟨k * v.x, k * v.y, k * v.z⟩⟩
instance : Zero Vec3 := ⟨⟨0, 0, 0⟩⟩

/-- Squared Euclidean norm. -/
noncomputable def sqNorm (v : Vec3) : ℝ := v.x ^ 2 + v.y ^ 2 + v.z ^ 2

/-- Euclidean magnitude, as in `Vector3.magnitude`. -/
noncomputable def magnitude (v : Vec3) : ℝ := Real.sqrt v.sqNorm

/-- `Vector3.normalized`: the vector divided by its magnitude, or the zero
vector when the magnitude vanishes (Unity uses an epsilon cutoff; in the
real-number model the cutoff is exact zero). -/
noncomputable def normalized (v : Vec3) : Vec3 :=
  if v.sqNorm = 0 then 0 else v.magnitude⁻¹ • v

/-- `Mathf.Clamp01`. -/
noncomputable def clamp01 (t : ℝ) : ℝ := max 0 (min 1 t)

/-- `Vector3.Lerp(a, b, t)` with Unity's clamping of `t` to `[0,1]`. -/
noncomputable def lerp (a b : Vec3) (t : ℝ) : Vec3 := a + clamp01 t • (b - a)

end Vec3

/-- The six cubemap face identifiers (`UnityEngine.CubemapFace`). -/
inductive CubemapFace where
  | PositiveX | NegativeX | PositiveY | NegativeY | PositiveZ | NegativeZ
deriving DecidableEq, Repr

/-- `CubemapFace.ToString()` as used by `GetFaceNameFromDirection`. -/
def CubemapFace.str : CubemapFace → String
  | .PositiveX => "PositiveX"
  | .NegativeX => "NegativeX"
  | .PositiveY => "PositiveY"
  | .NegativeY => "NegativeY"
  | .PositiveZ => "PositiveZ"
  | .NegativeZ => "NegativeZ"

/-- `InpaintingManager.GetCubemapFaceFromDirection`: compares the absolute
components with strict inequalities and falls through to the `z` branch. -/
noncomputable def GetCubemapFaceFromDirection (d : Vec3) : CubemapFace :=
  if |d.x| > |d.y| ∧ |d.x| > |d.z| then
    (if d.x > 0 then .PositiveX else .NegativeX)
  else if |d.y| > |d.z| then
    (if d.y > 0 then .PositiveY else .NegativeY)
  else
    (if d.z > 0 then .PositiveZ else .NegativeZ)

/-- `InpaintingManager.GetFaceNameFromDirection`. -/
noncomputable def GetFaceNameFromDirection (d : Vec3) : String :=
  (GetCubemapFaceFromDirection d).str

/-- `InpaintingManager.GetFaceFileName`: face name → one-letter file code. -/
def GetFaceFileName (faceName : String) : String :=
  if faceName = "PositiveX" then "r"
  else if faceName = "NegativeX" then "l"
  else if faceName = "PositiveY" then "u"
  else if faceName = "NegativeY" then "d"
  else if faceName = "PositiveZ" then "f"
  else if faceName = "NegativeZ" then "b"
  else "f"

/-- The image URL composed in `SendFaceToIOPaint` (line 402 of
`InpaintingManager.cs`):
`baseUrl + "/" + panoId + "/" + panoId + "_" + faceFileName + ".png"`. -/
def composeImageUrl (baseUrl panoId faceName : String) : String :=
  baseUrl ++ "/" ++ panoId ++ "/" ++ panoId ++ "_" ++ GetFaceFileName faceName ++ ".png"

/-! ## Face classifier theorems -/

/-- C1 counterexample: the claim predicts that a tie `|x| = |y| > |z|` is
resolved toward the earlier axis `x`, i.e. that `(1,1,0)` classifies as
`+X`; the code returns `+Y` there. -/
theorem C1_tie_counterexample :
    GetCubemapFaceFromDirection ⟨1, 1, 0⟩ ≠ CubemapFace.PositiveX ∧
    GetCubemapFaceFromDirection ⟨1, 1, 0⟩ = CubemapFace.PositiveY := by
  have h : GetCubemapFaceFromDirection ⟨1, 1, 0⟩ = CubemapFace.PositiveY := by
    norm_num [GetCubemapFaceFromDirection]
  refine ⟨?_, h⟩
  rw [h]
  decide

/-- C1 (amended): ties between component absolute values are resolved
deterministically toward the LATER axis in the order x, y, z (precedence
z > y > x on ties), with the sign taken from that later component:
if `|x| = |y| > |z|` the y face is returned, and any tie involving the
maximum and `|z|` returns the z face. -/
theorem C1_tie_break_later_axis (d : Vec3) :
    ((|d.x| = |d.y| → |d.y| > |d.z| →
      GetCubemapFaceFromDirection d =
        (if d.y > 0 then CubemapFace.PositiveY else CubemapFace.NegativeY)) ∧
     (|d.x| = |d.z| → |d.y| ≤ |d.z| →
      GetCubemapFaceFromDirection d =
        (if d.z > 0 then CubemapFace.PositiveZ else CubemapFace.NegativeZ)) ∧
     (|d.y| = |d.z| → |d.x| ≤ |d.z| →
      GetCubemapFaceFromDirection d =
        (if d.z > 0 then CubemapFace.PositiveZ else CubemapFace.NegativeZ))) := by
  refine ⟨fun h1 h2 => ?_, fun h1 h2 => ?_, fun h1 h2 => ?_⟩
  · unfold GetCubemapFaceFromDirection
    rw [if_neg, if_pos h2]
    simp only [h1, gt_iff_lt, lt_irrefl, false_and, not_false_eq_true]
  · unfold GetCubemapFaceFromDirection
    rw [if_neg, if_neg]
    · exact not_lt.mpr h2
    · rw [h1]
      simp only [gt_iff_lt, lt_irrefl, and_false, not_false_eq_true]
  · unfold GetCubemapFaceFromDirection
    rw [if_neg, if_neg]
    · rw [h1]
      exact lt_irrefl _
    · rw [h1]
      intro hc
      exact absurd hc.2 (not_lt.mpr h2)

/-- Witness for `C1_tie_break_later_axis` at the concrete tie `(1,1,0)`. -/
theorem C1_tie_break_later_axis_witness :
    |(1 : ℝ)| = |(1 : ℝ)| ∧ |(1 : ℝ)| > |(0 : ℝ)| ∧
    GetCubemapFaceFromDirection ⟨1, 1, 0⟩ = CubemapFace.PositiveY := by
  refine ⟨rfl, by norm_num, ?_⟩
  have h := (C1_tie_break_later_axis ⟨1, 1, 0⟩).1 (by norm_num) (by norm_num)
  rw [if_pos (by norm_num : ((⟨1, 1, 0⟩ : Vec3)).y > 0)] at h
  exact h

/-- C7: the classifier is total (returns exactly one face) and
scale-invariant: for every non-zero `d` and every `k > 0`,
`classify (k • d) = classify d`. -/
theorem C7_scale_invariant (d : Vec3) (k : ℝ)
    (hd : d ≠ 0) (hk : 0 < k) :
    (∃! f : CubemapFace, GetCubemapFaceFromDirection d = f) ∧
    GetCubemapFaceFromDirection (k • d) = GetCubemapFaceFromDirection d := by
  refine ⟨⟨GetCubemapFaceFromDirection d, rfl, fun f hf => hf.symm⟩, ?_⟩
  have hx : (k • d).x = k * d.x := rfl
  have hy : (k • d).y = k * d.y := rfl
  have hz : (k • d).z = k * d.z := rfl
  unfold GetCubemapFaceFromDirection
  rw [hx, hy, hz, abs_mul, abs_mul, abs_mul, abs_of_pos hk]
  have e1 : (k * |d.x| > k * |d.y|) ↔ (|d.x| > |d.y|) := mul_lt_mul_left hk
  have e2 : (k * |d.x| > k * |d.z|) ↔ (|d.x| > |d.z|) := mul_lt_mul_left hk
  have e3 : (k * |d.y| > k * |d.z|) ↔ (|d.y| > |d.z|) := mul_lt_mul_left hk
  have e4 : (k * d.x > 0) ↔ (d.x > 0) := by
    constructor <;> intro h
    · nlinarith
    · positivity
  have e5 : (k * d.y > 0) ↔ (d.y > 0) := by
    constructor <;> intro h
    · nlinarith
    · positivity
  have e6 : (k * d.z > 0) ↔ (d.z > 0) := by
    constructor <;> intro h
    · nlinarith
    · positivity
  simp only [e1, e2, e3, e4, e5, e6]

/-- Witness for `C7_scale_invariant` at `d = (1,0,0)`, `k = 2`. -/
theorem C7_scale_invariant_witness :
    (⟨1, 0, 0⟩ : Vec3) ≠ 0 ∧ (0 : ℝ) < 2 ∧
    GetCubemapFaceFromDirection ((2 : ℝ) • (⟨1, 0, 0⟩ : Vec3)) =
      GetCubemapFaceFromDirection ⟨1, 0, 0⟩ := by
  have hd : (⟨1, 0, 0⟩ : Vec3) ≠ 0 := fun h => one_ne_zero (congrArg Vec3.x h)
  exact ⟨hd, by norm_num, (C7_scale_invariant ⟨1, 0, 0⟩ 2 hd (by norm_num)).2⟩

/-- C10: the classifier is total over all 3-vectors: every input returns a
face, and the all-zero vector falls through the strict comparisons to the
z branch and returns `−Z`. -/
theorem C10_zero_vector_negative_z :
    GetCubemapFaceFromDirection ⟨0, 0, 0⟩ = CubemapFace.NegativeZ ∧
    ∀ d : Vec3, ∃ f : CubemapFace, GetCubemapFaceFromDirection d = f := by
  constructor
  · norm_num [GetCubemapFaceFromDirection]
  · exact fun d => ⟨GetCubemapFaceFromDirection d, rfl⟩

/-! ## Handoff URL theorems -/

/-- C6: the face-to-code mapping is +X→r, −X→l, +Y→u, −Y→d, +Z→f, −Z→b,
and the handoff image URL is composed as
`{base}/{panoId}/{panoId}_{faceCode}.png`; for panoId "P1" and face +Y
the URL is `{base}/P1/P1_u.png`. -/
theorem C6_image_url_composition (base panoId : String) :
    GetFaceFileName CubemapFace.PositiveX.str = "r" ∧
    GetFaceFileName CubemapFace.NegativeX.str = "l" ∧
    GetFaceFileName CubemapFace.PositiveY.str = "u" ∧
    GetFaceFileName CubemapFace.NegativeY.str = "d" ∧
    GetFaceFileName CubemapFace.PositiveZ.str = "f" ∧
    GetFaceFileName CubemapFace.NegativeZ.str = "b" ∧
    (∀ faceName : String, composeImageUrl base panoId faceName =
      base ++ "/" ++ panoId ++ "/" ++ panoId ++ "_" ++
        GetFaceFileName faceName ++ ".png") ∧
    composeImageUrl base "P1" CubemapFace.PositiveY.str = base ++ "/P1/P1_u.png" := by
  refine ⟨rfl, rfl, rfl, rfl, rfl, rfl, fun faceName => rfl, ?_⟩
  show base ++ "/" ++ "P1" ++ "/" ++ "P1" ++ "_" ++ "u" ++ ".png" = base ++ "/P1/P1_u.png"
  simp only [String.append_assoc]
  rfl

/-! ## Highlight mesh generator -/

/-- `InpaintingManager.GetFaceCorners`: per-face corner tuples in the unit
cube's local frame, including the default branch. -/
def GetFaceCorners (faceName : String) : Vec3 × Vec3 × Vec3 × Vec3 :=
  if faceName = "PositiveZ" then
    (⟨-1, -1, 1⟩, ⟨1, -1, 1⟩, ⟨1, 1, 1⟩, ⟨-1, 1, 1⟩)
  else if faceName = "NegativeZ" then
    (⟨1, -1, -1⟩, ⟨-1, -1, -1⟩, ⟨-1, 1, -1⟩, ⟨1, 1, -1⟩)
  else if faceName = "PositiveX" then
    (⟨1, -1, 1⟩, ⟨1, -1, -1⟩, ⟨1, 1, -1⟩, ⟨1, 1, 1⟩)
  else if faceName = "NegativeX" then
    (⟨-1, -1, -1⟩, ⟨-1, -1, 1⟩, ⟨-1, 1, 1⟩, ⟨-1, 1, -1⟩)
  else if faceName = "PositiveY" then
    (⟨-1, 1, -1⟩, ⟨-1, 1, 1⟩, ⟨1, 1, 1⟩, ⟨1, 1, -1⟩)
  else if faceName = "NegativeY" then
    (⟨-1, -1, 1⟩, ⟨-1, -1, -1⟩, ⟨1, -1, -1⟩, ⟨1, -1, 1⟩)
  else
    (⟨-1, -1, 1⟩, ⟨1, -1, 1⟩, ⟨1, 1, 1⟩, ⟨-1, 1, 1⟩)

/-- `InpaintingManager.BilinearInterpolation`: lerp along the bottom and
top edges, then between them. -/
noncomputable def BilinearInterpolation (corner0 corner1 corner2 corner3 : Vec3)
    (u v : ℝ) : Vec3 :=
  Vec3.lerp (Vec3.lerp corner0 corner1 u) (Vec3.lerp corner3 corner2 u) v

/-- The `(x, y)` index grid traversed by the vertex loops in
`UpdateHighlightMesh` (inner loop over `x`, outer over `y`). -/
def gridPoints (s : ℕ) : List (ℕ × ℕ) :=
  (List.range (s + 1)).flatMap fun y => (List.range (s + 1)).map fun x => (x, y)

/-- The vertex array built by `InpaintingManager.UpdateHighlightMesh`
(`subdivisionsPerSide = 20` is hardcoded in the source): each grid point is
bilinearly interpolated between the face corners, normalized, scaled by the
radius and offset by the sphere center. -/
noncomputable def UpdateHighlightMeshVertices (faceName : String)
    (sphereCenter : Vec3) (radius : ℝ) : List Vec3 :=
  let subdivisionsPerSide : ℕ := 20
  let c := GetFaceCorners faceName
  (gridPoints subdivisionsPerSide).map fun p =>
    let u : ℝ := (p.1 : ℝ) / (subdivisionsPerSide : ℝ)
    let v : ℝ := (p.2 : ℝ) / (subdivisionsPerSide : ℝ)
    sphereCenter + radius • (BilinearInterpolation c.1 c.2.1 c.2.2.1 c.2.2.2 u v).normalized

/-- The triangle list built by `InpaintingManager.UpdateHighlightMesh`:
two triangles per grid cell (the source writes the same six indices per
cell into a flat `int` array). -/
def UpdateHighlightMeshTriangles : List (ℕ × ℕ × ℕ) :=
  let subdivisionsPerSide : ℕ := 20
  (List.range subdivisionsPerSide).flatMap fun y =>
    (List.range subdivisionsPerSide).flatMap fun x =>
      let bottomLeft := y * (subdivisionsPerSide + 1) + x
      let bottomRight := bottomLeft + 1
      let topLeft := bottomLeft + (subdivisionsPerSide + 1)
      let topRight := topLeft + 1
      [(bottomLeft, topLeft, bottomRight), (bottomRight, topLeft, topRight)]

/-- Euclidean distance between two `Vec3`. -/
noncomputable def dist3 (a b : Vec3) : ℝ := (a - b).magnitude

lemma Vec3.sqNorm_nonneg (v : Vec3) : 0 ≤ v.sqNorm := by
  unfold Vec3.sqNorm
  positivity

lemma Vec3.add_def (a b : Vec3) : a + b = ⟨a.x + b.x, a.y + b.y, a.z + b.z⟩ := rfl

lemma Vec3.sub_def (a b : Vec3) : a - b = ⟨a.x - b.x, a.y - b.y, a.z - b.z⟩ := rfl

lemma Vec3.smul_def (k : ℝ) (v : Vec3) : k • v = ⟨k * v.x, k * v.y, k * v.z⟩ := rfl

lemma Vec3.lerp_x (a b : Vec3) (t : ℝ) :
    (Vec3.lerp a b t).x = a.x + Vec3.clamp01 t * (b.x - a.x) := rfl

lemma Vec3.lerp_y (a b : Vec3) (t : ℝ) :
    (Vec3.lerp a b t).y = a.y + Vec3.clamp01 t * (b.y - a.y) := rfl

lemma Vec3.lerp_z (a b : Vec3) (t : ℝ) :
    (Vec3.lerp a b t).z = a.z + Vec3.clamp01 t * (b.z - a.z) := rfl

/-- Bilinear interpolation preserves a coordinate shared by all corners
(x component). -/
lemma BilinearInterpolation_x_const (c0 c1 c2 c3 : Vec3) (u v cst : ℝ)
    (h0 : c0.x = cst) (h1 : c1.x = cst) (h2 : c2.x = cst) (h3 : c3.x = cst) :
    (BilinearInterpolation c0 c1 c2 c3 u v).x = cst := by
  unfold BilinearInterpolation
  rw [Vec3.lerp_x, Vec3.lerp_x, Vec3.lerp_x, h0, h1, h2, h3]
  ring

/-- Bilinear interpolation preserves a coordinate shared by all corners
(y component). -/
lemma BilinearInterpolation_y_const (c0 c1 c2 c3 : Vec3) (u v cst : ℝ)
    (h0 : c0.y = cst) (h1 : c1.y = cst) (h2 : c2.y = cst) (h3 : c3.y = cst) :
    (BilinearInterpolation c0 c1 c2 c3 u v).y = cst := by
  unfold BilinearInterpolation
  rw [Vec3.lerp_y, Vec3.lerp_y, Vec3.lerp_y, h0, h1, h2, h3]
  ring

/-- Bilinear interpolation preserves a coordinate shared by all corners
(z component). -/
lemma BilinearInterpolation_z_const (c0 c1 c2 c3 : Vec3) (u v cst : ℝ)
    (h0 : c0.z = cst) (h1 : c1.z = cst) (h2 : c2.z = cst) (h3 : c3.z = cst) :
    (BilinearInterpolation c0 c1 c2 c3 u v).z = cst := by
  unfold BilinearInterpolation
  rw [Vec3.lerp_z, Vec3.lerp_z, Vec3.lerp_z, h0, h1, h2, h3]
  ring

lemma Vec3.sqNorm_ne_zero_of_x (p : Vec3) (h : p.x = 1 ∨ p.x = -1) :
    p.sqNorm ≠ 0 := by
  intro h0
  unfold Vec3.sqNorm at h0
  rcases h with h | h <;> rw [h] at h0 <;>
    nlinarith [sq_nonneg p.y, sq_nonneg p.z]

lemma Vec3.sqNorm_ne_zero_of_y (p : Vec3) (h : p.y = 1 ∨ p.y = -1) :
    p.sqNorm ≠ 0 := by
  intro h0
  unfold Vec3.sqNorm at h0
  rcases h with h | h <;> rw [h] at h0 <;>
    nlinarith [sq_nonneg p.x, sq_nonneg p.z]

lemma Vec3.sqNorm_ne_zero_of_z (p : Vec3) (h : p.z = 1 ∨ p.z = -1) :
    p.sqNorm ≠ 0 := by
  intro h0
  unfold Vec3.sqNorm at h0
  rcases h with h | h <;> rw [h] at h0 <;>
    nlinarith [sq_nonneg p.x, sq_nonneg p.y]

/-- For every face-corner tuple returned by `GetFaceCorners`, the
bilinearly interpolated point is never the zero vector: one coordinate is
pinned to `1` or `-1` by the corner table. -/
lemma bilin_corners_sqNorm_ne_zero (faceName : String) (u v : ℝ) :
    (BilinearInterpolation (GetFaceCorners faceName).1
      (GetFaceCorners faceName).2.1 (GetFaceCorners faceName).2.2.1
      (GetFaceCorners faceName).2.2.2 u v).sqNorm ≠ 0 := by
  unfold GetFaceCorners
  split_ifs
  · exact Vec3.sqNorm_ne_zero_of_z _ (Or.inl
      (BilinearInterpolation_z_const _ _ _ _ u v 1 rfl rfl rfl rfl))
  · exact Vec3.sqNorm_ne_zero_of_z _ (Or.inr
      (BilinearInterpolation_z_const _ _ _ _ u v (-1) rfl rfl rfl rfl))
  · exact Vec3.sqNorm_ne_zero_of_x _ (Or.inl
      (BilinearInterpolation_x_const _ _ _ _ u v 1 rfl rfl rfl rfl))
  · exact Vec3.sqNorm_ne_zero_of_x _ (Or.inr
      (BilinearInterpolation_x_const _ _ _ _ u v (-1) rfl rfl rfl rfl))
  · exact Vec3.sqNorm_ne_zero_of_y _ (Or.inl
      (BilinearInterpolation_y_const _ _ _ _ u v 1 rfl rfl rfl rfl))
  · exact Vec3.sqNorm_ne_zero_of_y _ (Or.inr
      (BilinearInterpolation_y_const _ _ _ _ u v (-1) rfl rfl rfl rfl))
  · exact Vec3.sqNorm_ne_zero_of_z _ (Or.inl
      (BilinearInterpolation_z_const _ _ _ _ u v 1 rfl rfl rfl rfl))

lemma Vec3.sqNorm_smul (k : ℝ) (v : Vec3) :
    (k • v).sqNorm = k ^ 2 * v.sqNorm := by
  show (k * v.x) ^ 2 + (k * v.y) ^ 2 + (k * v.z) ^ 2 = _
  unfold Vec3.sqNorm
  ring

lemma Vec3.sqNorm_normalized (p : Vec3) (hp : p.sqNorm ≠ 0) :
    p.normalized.sqNorm = 1 := by
  unfold Vec3.normalized
  rw [if_neg hp, Vec3.sqNorm_smul]
  unfold Vec3.magnitude
  rw [← Real.sqrt_inv, Real.sq_sqrt (inv_nonneg.mpr (Vec3.sqNorm_nonneg p))]
  exact inv_mul_cancel₀ hp

/-- Distance of a generated vertex from the sphere center: adding
`r • normalize p` to the center lands at distance `r`. -/
lemma dist3_center_add (sphereCenter : Vec3) (r : ℝ) (hr : 0 ≤ r) (p : Vec3)
    (hp : p.sqNorm ≠ 0) :
    dist3 (sphereCenter + r • p.normalized) sphereCenter = r := by
  unfold dist3
  have hsub : (sphereCenter + r • p.normalized) - sphereCenter = r • p.normalized := by
    simp only [Vec3.add_def, Vec3.sub_def, Vec3.smul_def, Vec3.mk.injEq]
    refine ⟨by ring, by ring, by ring⟩
  rw [hsub]
  unfold Vec3.magnitude
  rw [Vec3.sqNorm_smul, Vec3.sqNorm_normalized p hp, mul_one]
  rw [Real.sqrt_sq hr]

set_option maxRecDepth 4000 in
/-- C5: with the hardcoded subdivision factor 20 the mesh generator
produces exactly `(20+1)^2 = 441` vertices and `20^2 * 2 = 800`
triangles, and every generated vertex lies at distance `r` from the
sphere center: each vertex is the center plus the normalized bilinearly
interpolated grid point scaled by `r`. -/
theorem C5_mesh_counts_and_radius (faceName : String) (sphereCenter : Vec3)
    (radius : ℝ) (hr : 0 ≤ radius) :
    (UpdateHighlightMeshVertices faceName sphereCenter radius).length = 441 ∧
    UpdateHighlightMeshTriangles.length = 800 ∧
    ∀ w ∈ UpdateHighlightMeshVertices faceName sphereCenter radius,
      dist3 w sphereCenter = radius := by
  refine ⟨?_, ?_, ?_⟩
  · show ((gridPoints 20).map _).length = 441
    rw [List.length_map]
    decide
  · decide
  · intro w hw
    unfold UpdateHighlightMeshVertices at hw
    simp only [List.mem_map] at hw
    obtain ⟨p, _, hpw⟩ := hw
    rw [← hpw]
    exact dist3_center_add sphereCenter radius hr _
      (bilin_corners_sqNorm_ne_zero faceName _ _)

/-- Witness for `C5_mesh_counts_and_radius` at face `"PositiveZ"`,
center `0`, radius `1`. -/
theorem C5_mesh_counts_and_radius_witness :
    (0 : ℝ) ≤ 1 ∧
    (UpdateHighlightMeshVertices "PositiveZ" 0 1).length = 441 ∧
    UpdateHighlightMeshTriangles.length = 800 ∧
    ∀ w ∈ UpdateHighlightMeshVertices "PositiveZ" 0 1, dist3 w 0 = 1 :=
  ⟨zero_le_one, C5_mesh_counts_and_radius "PositiveZ" 0 1 zero_le_one⟩

/-! ## Selection workflow state machine -/

/-- Default inspector value of the `apiUrl` field. -/
def apiUrl : String := "http://84.234.18.154:9000"

/-- Fallback URL of `GetCubemapsFolderUrl` (no configuration object in
the modelled scene). -/
def cubemapsFolderUrl : String := "http://localhost:8000/images/cubemaps"

/-- Observable side effects of the workflow: highlight regeneration
(`UpdateFaceHighlight` → `UpdateHighlightMesh`), hiding the highlight
(`ClearHighlight`), the HTTP dispatch to IOPaint, its logged outcome, and
`Application.OpenURL`. -/
inductive Effect where
  | updateFaceHighlight (faceName : String)
  | hideHighlight
  | dispatch (imageUrl : String)
  | logResult (success : Bool)
  | openURL (url : String)
deriving DecidableEq, Repr

/-- The mutable `InpaintingManager` fields that drive the workflow. -/
structure MState where
  isSelectionMode : Bool
  isProcessing : Bool
  currentHighlightedFace : String
  selectedFaceName : String
  selectedPanoId : String
deriving DecidableEq, Repr

/-- The spec's abstract selection states. -/
inductive SelState where
  | Idle | Selecting | Processing
deriving DecidableEq, Repr

/-- Abstract state read off the two booleans: `Idle` when selection mode
is off, `Processing` while the dispatch coroutine runs, else
`Selecting`. -/
def selState (s : MState) : SelState :=
  if !s.isSelectionMode then .Idle
  else if s.isProcessing then .Processing
  else .Selecting

/-- Per-tick input: the cursor ray direction, the active panorama id, the
right-click and escape edges, and the eventual outcome of any web request
issued this tick. -/
structure FrameInput where
  cursorDirection : Vec3
  panoId : String
  rightClick : Bool
  escape : Bool
  requestSucceeded : Bool

/-- `SendFaceToIOPaint`: builds the image URL and POSTs it; success and
failure differ only in what is logged, control flow is identical. -/
def SendFaceToIOPaint (faceName panoId : String) (requestSucceeded : Bool) :
    List Effect :=
  [Effect.dispatch (composeImageUrl cubemapsFolderUrl panoId faceName),
   Effect.logResult requestSucceeded]

/-- `InpaintWorkflow` run to completion: raise `isProcessing`, dispatch to
IOPaint, open the external interface, clear `isProcessing`. -/
def InpaintWorkflow (faceName panoId : String) (requestSucceeded : Bool)
    (s : MState) : MState × List Effect :=
  let s1 := { s with isProcessing := true }
  ({ s1 with isProcessing := false },
   SendFaceToIOPaint faceName panoId requestSucceeded ++ [Effect.openURL apiUrl])

/-- `OnFaceSelected`: early return while processing; otherwise record the
selection and start the workflow coroutine. -/
def OnFaceSelected (faceName panoId : String) (requestSucceeded : Bool)
    (s : MState) : MState × List Effect :=
  if s.isProcessing then (s, [])
  else InpaintWorkflow faceName panoId requestSucceeded
    { s with selectedFaceName := faceName, selectedPanoId := panoId }

/-- `ExitSelectionMode` followed by `ClearHighlight`. -/
def ExitSelectionMode (s : MState) : MState × List Effect :=
  ({ s with isSelectionMode := false, currentHighlightedFace := "" },
   [Effect.hideHighlight])

/-- `HandleCursorFaceDetection`: classify the cursor direction, update the
highlight only when the face changed, then honor the right-click confirm
and the escape cancel. -/
noncomputable def HandleCursorFaceDetection (inp : FrameInput) (s : MState) :
    MState × List Effect :=
  let faceName := GetFaceNameFromDirection inp.cursorDirection
  let p1 : MState × List Effect :=
    if faceName ≠ s.currentHighlightedFace then
      ({ s with currentHighlightedFace := faceName },
       [Effect.updateFaceHighlight faceName])
    else (s, [])
  let p2 : MState × List Effect :=
    if inp.rightClick then
      OnFaceSelected faceName inp.panoId inp.requestSucceeded p1.1
    else (p1.1, [])
  let p3 : MState × List Effect :=
    if inp.escape then ExitSelectionMode p2.1 else (p2.1, [])
  (p3.1, p1.2 ++ p2.2 ++ p3.2)

/-- `Update`: the per-tick entry point; cursor face detection runs only in
selection mode and not while processing. -/
noncomputable def Update (inp : FrameInput) (s : MState) : MState × List Effect :=
  if s.isSelectionMode ∧ ¬s.isProcessing then HandleCursorFaceDetection inp s
  else (s, [])

/-- Run a sequence of ticks through `Update`, concatenating effects. -/
noncomputable def runTicks : List FrameInput → MState → MState × List Effect
  | [], s => (s, [])
  | inp :: rest, s =>
    ((runTicks rest (Update inp s).1).1,
     (Update inp s).2 ++ (runTicks rest (Update inp s).1).2)

/-- Number of highlight-mesh regenerations in an effect list. -/
def countRegens (l : List Effect) : ℕ :=
  (l.filter fun e =>
    match e with
    | Effect.updateFaceHighlight _ => true
    | _ => false).length

/-- Number of distinct-face transitions along a classified face sequence,
starting from a remembered face. -/
def faceTransitions : String → List String → ℕ
  | _, [] => 0
  | cur, f :: rest => (if f = cur then 0 else 1) + faceTransitions f rest

lemma Update_selecting (inp : FrameInput) (s : MState)
    (hm : s.isSelectionMode = true) (hp : s.isProcessing = false) :
    Update inp s = HandleCursorFaceDetection inp s := by
  unfold Update
  rw [if_pos]
  refine ⟨hm, ?_⟩
  simp [hp]

lemma countRegens_append (a b : List Effect) :
    countRegens (a ++ b) = countRegens a + countRegens b := by
  unfold countRegens
  rw [List.filter_append, List.length_append]

lemma countRegens_OnFaceSelected (faceName panoId : String)
    (requestSucceeded : Bool) (s : MState) :
    countRegens (OnFaceSelected faceName panoId requestSucceeded s).2 = 0 := by
  unfold OnFaceSelected InpaintWorkflow SendFaceToIOPaint
  split_ifs <;> rfl

lemma countRegens_nil : countRegens [] = 0 := rfl

lemma countRegens_one_regen (faceName : String) :
    countRegens [Effect.updateFaceHighlight faceName] = 1 := rfl

lemma countRegens_hide : countRegens [Effect.hideHighlight] = 0 := rfl

lemma countRegens_cons_regen (faceName : String) (l : List Effect) :
    countRegens (Effect.updateFaceHighlight faceName :: l) = 1 + countRegens l := by
  unfold countRegens
  rw [List.filter_cons_of_pos rfl, List.length_cons, Nat.add_comm]

lemma countRegens_cons_hide (l : List Effect) :
    countRegens (Effect.hideHighlight :: l) = countRegens l := by
  unfold countRegens
  rw [List.filter_cons_of_neg]
  intro hc
  simp at hc

lemma countRegens_handle (inp : FrameInput) (s : MState) :
    countRegens (HandleCursorFaceDetection inp s).2 =
      if GetFaceNameFromDirection inp.cursorDirection = s.currentHighlightedFace
      then 0 else 1 := by
  unfold HandleCursorFaceDetection
  by_cases h : GetFaceNameFromDirection inp.cursorDirection = s.currentHighlightedFace <;>
    cases hrc : inp.rightClick <;> cases hesc : inp.escape <;>
      simp [h, hrc, hesc, countRegens_append, countRegens_OnFaceSelected,
        ExitSelectionMode, countRegens_nil, countRegens_one_regen, countRegens_hide,
        countRegens_cons_regen, countRegens_cons_hide]

lemma countRegens_Update (inp : FrameInput) (s : MState)
    (hm : s.isSelectionMode = true) (hp : s.isProcessing = false) :
    countRegens (Update inp s).2 =
      if GetFaceNameFromDirection inp.cursorDirection = s.currentHighlightedFace
      then 0 else 1 := by
  rw [Update_selecting inp s hm hp, countRegens_handle]

lemma Update_state_no_click (inp : FrameInput) (s : MState)
    (hm : s.isSelectionMode = true) (hp : s.isProcessing = false)
    (hrc : inp.rightClick = false) (hesc : inp.escape = false) :
    (Update inp s).1 =
      { s with currentHighlightedFace := GetFaceNameFromDirection inp.cursorDirection } := by
  rw [Update_selecting inp s hm hp]
  by_cases h : GetFaceNameFromDirection inp.cursorDirection = s.currentHighlightedFace
  · simp [HandleCursorFaceDetection, h, hrc, hesc]
  · simp [HandleCursorFaceDetection, h, hrc, hesc]

lemma faceTransitions_cons (cur f : String) (rest : List String) :
    faceTransitions cur (f :: rest) =
      (if f = cur then 0 else 1) + faceTransitions f rest := rfl

lemma runTicks_countRegens (inputs : List FrameInput) (s : MState)
    (hm : s.isSelectionMode = true) (hp : s.isProcessing = false)
    (hq : ∀ i ∈ inputs, i.rightClick = false ∧ i.escape = false) :
    countRegens (runTicks inputs s).2 =
      faceTransitions s.currentHighlightedFace
        (inputs.map fun i => GetFaceNameFromDirection i.cursorDirection) := by
  induction inputs generalizing s with
  | nil => rfl
  | cons i rest ih =>
    obtain ⟨hrc, hesc⟩ := hq i (List.mem_cons_self i rest)
    have hq' : ∀ j ∈ rest, j.rightClick = false ∧ j.escape = false :=
      fun j hj => hq j (List.mem_cons_of_mem i hj)
    have hs1 : (Update i s).1 =
        { s with currentHighlightedFace := GetFaceNameFromDirection i.cursorDirection } :=
      Update_state_no_click i s hm hp hrc hesc
    show countRegens ((Update i s).2 ++ (runTicks rest (Update i s).1).2) = _
    rw [countRegens_append, countRegens_Update i s hm hp, hs1,
      ih { s with currentHighlightedFace := GetFaceNameFromDirection i.cursorDirection }
        hm hp hq', List.map_cons, faceTransitions_cons]

/-- C4: in the `Selecting` state a tick regenerates the highlight mesh if
and only if the classified face name differs from the remembered one, and
over any sequence of confirmation-free, cancel-free ticks the number of
regeneration calls equals the number of distinct-face transitions of the
classified face sequence (not the number of ticks). -/
theorem C4_regen_iff_face_changed (inputs : List FrameInput) (s : MState)
    (hm : s.isSelectionMode = true) (hp : s.isProcessing = false)
    (hq : ∀ i ∈ inputs, i.rightClick = false ∧ i.escape = false) :
    (∀ inp : FrameInput,
      0 < countRegens (Update inp s).2 ↔
        GetFaceNameFromDirection inp.cursorDirection ≠ s.currentHighlightedFace) ∧
    countRegens (runTicks inputs s).2 =
      faceTransitions s.currentHighlightedFace
        (inputs.map fun i => GetFaceNameFromDirection i.cursorDirection) := by
  constructor
  · intro inp
    rw [countRegens_Update inp s hm hp]
    by_cases h : GetFaceNameFromDirection inp.cursorDirection =
        s.currentHighlightedFace <;> simp [h]
  · exact runTicks_countRegens inputs s hm hp hq

/-- Witness for `C4_regen_iff_face_changed`: two consecutive ticks with
the same cursor direction from a fresh selecting state. -/
theorem C4_regen_iff_face_changed_witness :
    (MState.mk true false "" "" "").isSelectionMode = true ∧
    (MState.mk true false "" "" "").isProcessing = false ∧
    (∀ i ∈ [FrameInput.mk ⟨1, 0, 0⟩ "P1" false false true,
            FrameInput.mk ⟨1, 0, 0⟩ "P1" false false true],
      i.rightClick = false ∧ i.escape = false) ∧
    countRegens (runTicks
      [FrameInput.mk ⟨1, 0, 0⟩ "P1" false false true,
       FrameInput.mk ⟨1, 0, 0⟩ "P1" false false true]
      (MState.mk true false "" "" "")).2 =
      faceTransitions ""
        ([FrameInput.mk ⟨1, 0, 0⟩ "P1" false false true,
          FrameInput.mk ⟨1, 0, 0⟩ "P1" false false true].map
          fun i => GetFaceNameFromDirection i.cursorDirection) := by
  have hq : ∀ i ∈ [FrameInput.mk ⟨1, 0, 0⟩ "P1" false false true,
      FrameInput.mk ⟨1, 0, 0⟩ "P1" false false true],
      i.rightClick = false ∧ i.escape = false := by
    intro i hi
    fin_cases hi <;> exact ⟨rfl, rfl⟩
  exact ⟨rfl, rfl, hq,
    (C4_regen_iff_face_changed _ (MState.mk true false "" "" "") rfl rfl hq).2⟩

/-- C3: a confirmation input while `isProcessing` changes nothing: the
per-tick entry point skips face detection entirely (so the right-click is
never polled), and `OnFaceSelected` itself early-returns, so the state is
unchanged (it remains Processing) and no effects — in particular no second
dispatch — are produced. -/
theorem C3_confirm_ignored_while_processing (inp : FrameInput) (s : MState)
    (hp : s.isProcessing = true) :
    Update inp s = (s, []) ∧
    ∀ faceName panoId requestSucceeded,
      OnFaceSelected faceName panoId requestSucceeded s = (s, []) := by
  constructor
  · unfold Update
    rw [if_neg]
    simp [hp]
  · intro faceName panoId requestSucceeded
    unfold OnFaceSelected
    rw [if_pos hp]

/-- Witness for `C3_confirm_ignored_while_processing`: a processing state
receiving a right-click tick. -/
theorem C3_confirm_ignored_while_processing_witness :
    (MState.mk true true "PositiveX" "PositiveX" "P1").isProcessing = true ∧
    Update (FrameInput.mk ⟨1, 0, 0⟩ "P1" true false true)
        (MState.mk true true "PositiveX" "PositiveX" "P1") =
      (MState.mk true true "PositiveX" "PositiveX" "P1", []) ∧
    OnFaceSelected "PositiveX" "P1" true
        (MState.mk true true "PositiveX" "PositiveX" "P1") =
      (MState.mk true true "PositiveX" "PositiveX" "P1", []) :=
  ⟨rfl,
   (C3_confirm_ignored_while_processing (FrameInput.mk ⟨1, 0, 0⟩ "P1" true false true)
     (MState.mk true true "PositiveX" "PositiveX" "P1") rfl).1,
   (C3_confirm_ignored_while_processing (FrameInput.mk ⟨1, 0, 0⟩ "P1" true false true)
     (MState.mk true true "PositiveX" "PositiveX" "P1") rfl).2 "PositiveX" "P1" true⟩

/-- C2 counterexample: the claim says the machine transitions back to
`Idle` after the workflow completes; starting the workflow from the
Selecting state (selection mode on, not processing), the completed
workflow leaves selection mode on, so the abstract state is `Selecting`,
not `Idle`. -/
theorem C2_counterexample :
    selState (InpaintWorkflow "PositiveX" "P1" true
      (MState.mk true false "PositiveX" "PositiveX" "P1")).1 ≠ SelState.Idle ∧
    selState (InpaintWorkflow "PositiveX" "P1" true
      (MState.mk true false "PositiveX" "PositiveX" "P1")).1 = SelState.Selecting := by
  constructor
  · decide
  · decide

/-- C2 (amended): once the workflow coroutine completes — with the same
effects whether the dispatch succeeded or failed — it has dispatched the
handoff and then opened the external service's interface, and it clears
the processing flag; but it leaves selection mode untouched, so from
`Selecting` the machine returns to `Selecting`, not `Idle`. -/
theorem C2_workflow_completion (faceName panoId : String)
    (requestSucceeded : Bool) (s : MState) (hs : s.isSelectionMode = true) :
    (InpaintWorkflow faceName panoId requestSucceeded s).2 =
      [Effect.dispatch (composeImageUrl cubemapsFolderUrl panoId faceName),
       Effect.logResult requestSucceeded, Effect.openURL apiUrl] ∧
    (InpaintWorkflow faceName panoId requestSucceeded s).1.isProcessing = false ∧
    selState (InpaintWorkflow faceName panoId requestSucceeded s).1 =
      SelState.Selecting := by
  refine ⟨rfl, rfl, ?_⟩
  unfold InpaintWorkflow selState
  simp [hs]

/-- Witness for `C2_workflow_completion` from a concrete selecting
state. -/
theorem C2_workflow_completion_witness :
    (MState.mk true false "PositiveX" "PositiveX" "P1").isSelectionMode = true ∧
    selState (InpaintWorkflow "PositiveX" "P1" false
      (MState.mk true false "PositiveX" "PositiveX" "P1")).1 = SelState.Selecting :=
  ⟨rfl,
   (C2_workflow_completion "PositiveX" "P1" false
     (MState.mk true false "PositiveX" "PositiveX" "P1") rfl).2.2⟩

/-! ## Inbound result ingestor (socket listener in the web app) -/

/-- Value of a base64 alphabet character, `none` for a character outside
the alphabet. -/
def b64Val (c : Char) : Option ℕ :=
  if 'A' ≤ c ∧ c ≤ 'Z' then some (c.toNat - 65)
  else if 'a' ≤ c ∧ c ≤ 'z' then some (c.toNat - 97 + 26)
  else if '0' ≤ c ∧ c ≤ '9' then some (c.toNat - 48 + 52)
  else if c = '+' then some 62
  else if c = '/' then some 63
  else none

/-- Decode a padding-stripped sequence of 6-bit values into 8-bit bytes,
discarding leftover bits; a single trailing value (length ≡ 1 mod 4) is
invalid. -/
def decodeQuads : List ℕ → Option (List ℕ)
  | [] => some []
  | [_] => none
  | [a, b] => some [a * 4 + b / 16]
  | [a, b, c] => some [a * 4 + b / 16, (b % 16) * 16 + c / 4]
  | a :: b :: c :: d :: rest =>
    (decodeQuads rest).map fun l =>
      (a * 4 + b / 16) :: ((b % 16) * 16 + c / 4) :: ((c % 4) * 64 + d) :: l

/-- Strip one trailing `=`. -/
def stripPad (l : List Char) : List Char :=
  if l.getLast? = some '=' then l.dropLast else l

/-- Models the browser `atob` (forgiving-base64 decode; the payload is
assumed whitespace-free): when the length is a multiple of four, up to two
trailing `=` are stripped; decoding fails (the JS function throws) when
the remaining length is 1 mod 4 or any character is outside the base64
alphabet. -/
def atob (s : String) : Option (List ℕ) :=
  let data := if s.data.length % 4 = 0 then stripPad (stripPad s.data) else s.data
  if data.length % 4 = 1 then none
  else (data.mapM b64Val).bind decodeQuads

/-- The artifact published into shared state: a `File` named
`unity-image.png` with MIME type `image/png` wrapping the decoded
bytes. -/
structure ImageArtifact where
  name : String
  mimeType : String
  bytes : List ℕ
deriving DecidableEq, Repr

/-- Payload of the `unity_image_received` push event; `image` is `none`
when the field is absent (the handler also treats the empty string as
absent, by JS truthiness). -/
structure UnityPayload where
  image : Option String
deriving DecidableEq, Repr

/-- The `socket.on("unity_image_received")` handler: guards on
`data && data.image`, decodes the base64 payload (`atob` throwing is
caught, leaving the state untouched), and otherwise publishes exactly one
file into shared state via `setFile`.  Shared state is modelled as the
list of published artifacts, in order. -/
def handleUnityImageReceived (data : Option UnityPayload)
    (published : List ImageArtifact) : List ImageArtifact :=
  match data with
  | none => published
  | some p =>
    match p.image with
    | none => published
    | some img =>
      if img = "" then published
      else
        match atob img with
        | none => published
        | some bytes =>
          published ++ [⟨"unity-image.png", "image/png", bytes⟩]

/-- C8: a push event with a missing payload, a missing or empty image
field, or image data `atob` rejects, publishes nothing (no state
mutation); a payload carrying valid base64 image data publishes exactly
one artifact named `unity-image.png` of MIME type `image/png` whose bytes
are the decoded bytes (so its byte length equals the decoded byte
length). -/
theorem C8_inbound_push (published : List ImageArtifact) :
    handleUnityImageReceived none published = published ∧
    handleUnityImageReceived (some ⟨none⟩) published = published ∧
    handleUnityImageReceived (some ⟨some ""⟩) published = published ∧
    (∀ img : String, atob img = none →
      handleUnityImageReceived (some ⟨some img⟩) published = published) ∧
    (∀ (img : String) (bytes : List ℕ), img ≠ "" → atob img = some bytes →
      handleUnityImageReceived (some ⟨some img⟩) published =
        published ++ [⟨"unity-image.png", "image/png", bytes⟩]) := by
  refine ⟨rfl, rfl, rfl, ?_, ?_⟩
  · intro img h
    simp only [handleUnityImageReceived]
    split_ifs with he
    · rfl
    · rw [h]
  · intro img bytes hne h
    simp only [handleUnityImageReceived]
    rw [if_neg hne, h]

/-- Witness for `C8_inbound_push`: the four-character payload `"AAAA"`
decodes to three zero bytes and is published as one artifact. -/
theorem C8_inbound_push_witness :
    ("AAAA" : String) ≠ "" ∧ atob "AAAA" = some [0, 0, 0] ∧
    handleUnityImageReceived (some ⟨some "AAAA"⟩) [] =
      [⟨"unity-image.png", "image/png", [0, 0, 0]⟩] := by
  refine ⟨by decide, by decide, ?_⟩
  exact (C8_inbound_push []).2.2.2.2 "AAAA" [0, 0, 0] (by decide) (by decide)

/-! ## Consumer bootstrap fetch (`useInputImage`) -/

/-- Subset of the Fetch API response visible to `fetchInputImage`: the
HTTP status and the body blob's MIME type and bytes. -/
structure FetchResponse where
  status : ℕ
  blobType : String
  blobBytes : List ℕ
deriving DecidableEq, Repr

/-- The Fetch API `ok` flag: status in the 2xx range. -/
def FetchResponse.ok (r : FetchResponse) : Bool :=
  decide (200 ≤ r.status ∧ r.status ≤ 299)

/-- The input `File` constructed by `useInputImage`
(`new File([data], imageParam)`). -/
structure InputFile where
  name : String
  bytes : List ℕ
deriving DecidableEq, Repr

/-- The URL-parameter branch of `useInputImage.fetchInputImage`, run
against the response of `GET /api/v1/cached_image/{id}`; `none` as input
models a network error swallowed by the `.catch` handler.  Every outcome
is a normal return: a non-OK response or a non-image blob just leaves the
input image unset, no error is propagated. -/
def fetchInputImage (imageParam : String) (res : Option FetchResponse) :
    Option InputFile :=
  match res with
  | none => none
  | some r =>
    if ¬r.ok then none
    else if r.blobType.startsWith "image" then some ⟨imageParam, r.blobBytes⟩
    else none

/-- C9: a non-2xx response to the cached-image bootstrap fetch sets no
input image and propagates no error (normal return), as does a network
error; an input image is set only when the response is OK and its body
blob has an image MIME type, in which case it is the blob named by the
URL parameter. -/
theorem C9_bootstrap_fetch (imageParam : String) (r : FetchResponse)
    (h : ¬(200 ≤ r.status ∧ r.status ≤ 299)) :
    fetchInputImage imageParam (some r) = none ∧
    fetchInputImage imageParam none = none ∧
    (∀ (res : Option FetchResponse) (f : InputFile),
      fetchInputImage imageParam res = some f →
      ∃ r' : FetchResponse, res = some r' ∧ r'.ok = true ∧
        r'.blobType.startsWith "image" = true ∧
        f = ⟨imageParam, r'.blobBytes⟩) := by
  refine ⟨?_, rfl, ?_⟩
  · simp [fetchInputImage, FetchResponse.ok, h]
  · intro res f hf
    match res with
    | none => simp [fetchInputImage] at hf
    | some r' =>
      simp only [fetchInputImage] at hf
      by_cases hok : r'.ok = true
      · rw [if_neg (not_not_intro hok)] at hf
        by_cases him : r'.blobType.startsWith "image" = true
        · rw [if_pos him] at hf
          injection hf with hf'
          exact ⟨r', rfl, hok, him, hf'.symm⟩
        · rw [if_neg him] at hf
          simp at hf
      · rw [if_pos hok] at hf
        simp at hf

/-- Witness for `C9_bootstrap_fetch` at a concrete 404 response. -/
theorem C9_bootstrap_fetch_witness :
    ¬(200 ≤ 404 ∧ 404 ≤ 299) ∧
    fetchInputImage "result1" (some ⟨404, "text/html", []⟩) = none :=
  ⟨by decide,
   (C9_bootstrap_fetch "result1" ⟨404, "text/html", []⟩ (by decide)).1⟩
